import Mathlib

/-!
Shallow embedding of the everyday_parking_position repository
(src/parking_check.py and src/parking_data.py).

The Python program drives a web page to obtain a parking snapshot
(`check_parking_location`), stores it in Redis and detects changes
(`ParkingDataManager.save_parking_info`), and decides whether to send a
Mattermost message (`main`).  External effects (Redis, Selenium, HTTP)
are modelled by explicit state passing and by environment records whose
fields say which external step succeeds or fails; all string constants
are the exact strings of the source.
-/

namespace Parking

/-- A Python result dictionary as produced by `check_parking_location` and
consumed by `save_parking_info`: every key may be absent (`none`). -/
structure PResult where
  car_number : Option String
  status : Option String
  details : Option String
  error : Option String
  screenshot : Option String
deriving DecidableEq, Repr

/-- The JSON object written under `parking:{car_number}` by
`save_parking_info` (`new_data` in the source): all six fields present. -/
structure StoredData where
  car_number : String
  status : String
  last_updated : String
  details : String
  error : String
  screenshot : String
deriving DecidableEq, Repr

/-- One JSON entry of the `parking:history:{car_number}` list
(`history_entry` in the source). -/
structure HistoryEntry where
  timestamp : String
  car_number : String
  change_type : String
  changes : String
  data : StoredData
deriving DecidableEq, Repr

/-- The Redis key space used by the program: the snapshot value under
`parking:{id}` and the history list under `parking:history:{id}`,
modelled as two maps keyed by the car number. -/
structure Store where
  snap : String → Option StoredData
  hist : String → List HistoryEntry

/-- The store with no keys set. -/
def Store.empty : Store := { snap := fun _ => none, hist := fun _ => [] }

/-- Python `str.strip()`: drop leading and trailing whitespace. -/
def pyStrip (s : String) : String :=
  String.mk (((s.data.dropWhile Char.isWhitespace).reverse.dropWhile
    Char.isWhitespace).reverse)

/-- The single-quote character, as used in the change messages of
`save_parking_info`. -/
def sq : String := "\x27"

/-- The comparison loop of `save_parking_info` (lines 144-151): walk the
fields `status`, `details`, `error` in order and return the first
differing field together with its old and new value, or `none` when all
three agree. -/
def firstDiff (old : StoredData) (new : StoredData) :
    Option (String × String × String) :=
  if old.status ≠ new.status then some ("status", old.status, new.status)
  else if old.details ≠ new.details then
    some ("details", old.details, new.details)
  else if old.error ≠ new.error then some ("error", old.error, new.error)
  else none

/-- The change-message f-string line of source line 150 (field name,
colon, single-quoted old value, arrow, single-quoted new value, newline)
appended for the first differing field. -/
def diffLine (f : String) (oldv : String) (newv : String) : String :=
  f ++ ": " ++ sq ++ oldv ++ sq ++ " → " ++ sq ++ newv ++ sq ++ "\n"

/-- Model of `lpush` followed by `ltrim key 0 9` (lines 172-173): insert at the
head and keep only the first 10 entries. -/
def appendHistory (h : List HistoryEntry) (e : HistoryEntry) :
    List HistoryEntry :=
  (e :: h).take 10

/-- The `new_data` dictionary built at lines 124-131: the fields of the result
with their `get` defaults, plus the current timestamp. -/
def mkNewData (cn : String) (now : String) (r : PResult) : StoredData :=
  { car_number := cn
    status := r.status.getD "unknown"
    last_updated := now
    details := r.details.getD ""
    error := r.error.getD ""
    screenshot := r.screenshot.getD "" }

/-- Body of `save_parking_info` after the existing snapshot has been read
(lines 121-182).  `putOk` says whether the `redis.set` inside the `try`
block succeeds; when it raises, the exception is caught at line 179 and
`(False, "Redis 저장 실패: ...")` is returned with the store untouched. -/
def saveBody (putOk : Bool) (st : Store) (now : String) (cn : String)
    (r : PResult) : Store × Bool × String :=
  let existing := st.snap cn
  let newData := mkNewData cn now r
  let diff := match existing with
    | some old => firstDiff old newData
    | none => none
  let isChanged := existing.isNone || diff.isSome
  let changeMessage := match existing with
    | some old =>
      match firstDiff old newData with
      | some (f, ov, nv) => diffLine f ov nv
      | none => ""
    | none => "신규 주차 정보 저장"
  if putOk = false then (st, false, "Redis 저장 실패: exception")
  else
    let st1 : Store :=
      { snap := fun k => if k = cn then some newData else st.snap k
        hist := st.hist }
    let st2 : Store :=
      if isChanged then
        let entry : HistoryEntry :=
          { timestamp := now
            car_number := cn
            change_type := if existing.isSome then "update" else "create"
            changes := pyStrip changeMessage
            data := newData }
        { snap := st1.snap
          hist := fun k =>
            if k = cn then appendHistory (st.hist k) entry else st.hist k }
      else st1
    (st2, isChanged,
      if changeMessage = "" then "변경사항 없음" else pyStrip changeMessage)

/-- Model of `ParkingDataManager.save_parking_info` (lines 102-182).  `getOk` says
whether the unguarded `redis.get` at line 120 succeeds; when it raises,
the exception escapes the method (`Except.error`).  Python falsiness of
the car number (`if not car_number`) covers both an absent key and the
empty string. -/
def saveParkingInfo (getOk : Bool) (putOk : Bool) (st : Store)
    (now : String) (r : PResult) : Except String (Store × Bool × String) :=
  let cn := r.car_number.getD ""
  if cn = "" then Except.ok (st, false, "차량번호가 없습니다.")
  else if getOk = false then Except.error "redis get raised"
  else Except.ok (saveBody putOk st now cn r)

/-- Model of `ParkingDataManager.get_parking_info` (lines 184-203): any Redis
exception is caught and turned into `None`. -/
def getParkingInfo (getOk : Bool) (st : Store) (cn : String) :
    Option StoredData :=
  if getOk then st.snap cn else none

/-- Projection: the changed flag returned by a non-raising
`save_parking_info` call. -/
def saveChangedB (st : Store) (now : String) (r : PResult) : Bool :=
  match saveParkingInfo true true st now r with
  | Except.ok (_, b, _) => b
  | Except.error _ => false

/-- Projection: the message returned by a non-raising `save_parking_info`
call. -/
def saveMsg (st : Store) (now : String) (r : PResult) : Option String :=
  match saveParkingInfo true true st now r with
  | Except.ok (_, _, m) => some m
  | Except.error _ => none

/-- Projection: the store state after a non-raising `save_parking_info`
call. -/
def saveStore (st : Store) (now : String) (r : PResult) : Store :=
  match saveParkingInfo true true st now r with
  | Except.ok (s, _, _) => s
  | Except.error _ => st

deriving instance DecidableEq for Except

/-- The external world seen by `check_parking_location`: each field says
whether one stage of the page interaction succeeds, and with which text.
`setupExc` is an unexpected exception (driver setup, navigation, ...)
caught by the outer `except` at line 168; the four stage fields mirror
the four inner `try` blocks; `bodyText` is the page body text that the
result-parsing stage reads, or the exception it raises. -/
structure PageEnv where
  setupExc : Option String
  parkingUrl : Option String
  inputField : Except String Unit
  digitEntry : Except String Unit
  searchButton : Except String Unit
  bodyText : Except String String
deriving DecidableEq, Repr

/-- A page environment in which every stage succeeds. -/
def PageEnv.allOk (url : String) (body : String) : PageEnv :=
  { setupExc := none
    parkingUrl := some url
    inputField := Except.ok ()
    digitEntry := Except.ok ()
    searchButton := Except.ok ()
    bodyText := Except.ok body }

/-- Result dictionary with only `car_number`, `status`, `error` set, as
returned by the early error paths of `check_parking_location`. -/
def errResult (cn : String) (msg : String) : PResult :=
  { car_number := some cn
    status := some "error"
    error := some msg
    details := none
    screenshot := none }

/-- Model of `check_parking_location` (lines 50-178): walks the stages in source
order and returns the dictionary the first failing stage builds, or the
`found` dictionary when every stage succeeds.  The screenshot taken at
line 138 after the search click is attached to both the `found` result
and the parse-failure result; the search-button failure attaches the
debug screenshot of line 124. -/
def checkParkingLocation (env : PageEnv) (carNumber : String) : PResult :=
  match env.setupExc with
  | some e => errResult carNumber e
  | none =>
    match env.parkingUrl with
    | none => errResult carNumber "PARKING_URL not set"
    | some _ =>
      match env.inputField with
      | Except.error e =>
        errResult carNumber ("입력 필드를 찾을 수 없습니다: " ++ e)
      | Except.ok _ =>
        match env.digitEntry with
        | Except.error e =>
          errResult carNumber ("차량번호 입력 실패: " ++ e)
        | Except.ok _ =>
          match env.searchButton with
          | Except.error e =>
            { car_number := some carNumber
              status := some "error"
              error := some ("검색 버튼을 찾을 수 없습니다: " ++ e)
              details := none
              screenshot := some "/tmp/parking_debug.png" }
          | Except.ok _ =>
            match env.bodyText with
            | Except.ok t =>
              { car_number := some carNumber
                status := some "found"
                screenshot := some "/tmp/parking_location.png"
                details := some (t.take 500)
                error := none }
            | Except.error e =>
              { car_number := some carNumber
                status := some "error"
                screenshot := some "/tmp/parking_location.png"
                error := some e
                details := none }

/-- The message of the first failing stage, written out stage by stage in the
order of the acquisition-result contract (missing configuration, missing
input control, digit-entry failure, missing search control,
result-parsing failure, unexpected exception); `none` when every stage
succeeds. -/
def firstFailureReason (env : PageEnv) : Option String :=
  match env.setupExc with
  | some e => some e
  | none =>
    match env.parkingUrl with
    | none => some "PARKING_URL not set"
    | some _ =>
      match env.inputField with
      | Except.error e => some ("입력 필드를 찾을 수 없습니다: " ++ e)
      | Except.ok _ =>
        match env.digitEntry with
        | Except.error e => some ("차량번호 입력 실패: " ++ e)
        | Except.ok _ =>
          match env.searchButton with
          | Except.error e => some ("검색 버튼을 찾을 수 없습니다: " ++ e)
          | Except.ok _ =>
            match env.bodyText with
            | Except.ok _ => none
            | Except.error e => some e

/-- The external world seen by `main` (lines 256-325): the configured
car number (`CAR_NUMBER`), whether the Redis manager could be built,
whether Redis reads and writes succeed, whether the webhook URL is set
and whether HTTP delivery succeeds, the page environment, the current
timestamp and the initial store contents. -/
structure MainEnv where
  carNumber : Option String
  redisOk : Bool
  getOk : Bool
  putOk : Bool
  webhookSet : Bool
  deliveryOk : Bool
  page : PageEnv
  now : String
  store : Store

/-- What one run of `main` produces: the process exit code, the result
dictionary (if acquisition ran), the change flag obtained from the save,
the number of Mattermost send attempts, and the final store state. -/
structure MainOut where
  exitCode : Nat
  result : Option PResult
  redisChanged : Bool
  notifyAttempts : Nat
  store : Store

/-- Model of `main` (lines 256-325).  The car-number check uses Python falsiness
(`if not car_number`).  The save call is wrapped in `try/except`
(line 292), so a raising save leaves `redis_changed = False` and the
store as the save left it (unchanged, since the unguarded read raised
before any write).  In the `found` branch the suppression check re-reads
the store through `get_parking_info`; in the other branch an error
message is sent whenever the webhook URL is set.  `sys.exit(1)` is exit
code 1; falling off the end is exit code 0.  The return value of
`send_to_mattermost` (delivery success) is ignored everywhere. -/
def mainCycle (env : MainEnv) : MainOut :=
  let cn := env.carNumber.getD ""
  if cn = "" then
    { exitCode := 1, result := none, redisChanged := false
      notifyAttempts := 0, store := env.store }
  else
    let result := checkParkingLocation env.page cn
    let saved : Store × Bool :=
      if env.redisOk then
        match saveParkingInfo env.getOk env.putOk env.store env.now result with
        | Except.ok (st1, ch, _) => (st1, ch)
        | Except.error _ => (env.store, false)
      else (env.store, false)
    let st1 := saved.1
    let redisChanged := saved.2
    if result.status = some "found" then
      let shouldNotify : Bool :=
        if env.redisOk then
          match getParkingInfo env.getOk st1 cn with
          | some _ => redisChanged
          | none => true
        else true
      { exitCode := 0
        result := some result
        redisChanged := redisChanged
        notifyAttempts := if shouldNotify && env.webhookSet then 1 else 0
        store := st1 }
    else
      { exitCode := 1
        result := some result
        redisChanged := redisChanged
        notifyAttempts := if env.webhookSet then 1 else 0
        store := st1 }

/-! Concrete sample data used to exercise the model on closed inputs. -/

/-- A successful acquisition result for car 1234. -/
def rFound : PResult :=
  { car_number := some "1234"
    status := some "found"
    details := some "주차층 B2 차량위치 15"
    error := none
    screenshot := some "/tmp/parking_location.png" }

/-- An error acquisition result for car 1234. -/
def rErr : PResult :=
  { car_number := some "1234"
    status := some "error"
    details := none
    error := some "boom"
    screenshot := none }

/-- A result dictionary with no car number. -/
def rNoCar : PResult :=
  { car_number := none
    status := some "error"
    details := none
    error := some "boom"
    screenshot := none }

/-- A previously stored snapshot for car 1234. -/
def oldData : StoredData :=
  { car_number := "1234"
    status := "found"
    last_updated := "t0"
    details := "주차층 B1 차량위치 07"
    error := ""
    screenshot := "" }

/-- A store already holding `oldData` under car 1234. -/
def stOld : Store :=
  { snap := fun k => if k = "1234" then some oldData else none
    hist := fun _ => [] }

/-- A numbered history entry. -/
def sampleEntry (i : Nat) : HistoryEntry :=
  { timestamp := toString i
    car_number := "1234"
    change_type := "update"
    changes := ""
    data := oldData }

/-- Fifteen distinct history entries. -/
def entries15 : List HistoryEntry := (List.range 15).map sampleEntry

/-- A page environment where every stage succeeds. -/
def pageOk : PageEnv := PageEnv.allOk "http://parking.example" "sample body"

/-- A page environment where the configuration URL is missing. -/
def pageErr : PageEnv :=
  { setupExc := none
    parkingUrl := none
    inputField := Except.ok ()
    digitEntry := Except.ok ()
    searchButton := Except.ok ()
    bodyText := Except.ok "sample body" }

/-- A main environment with a healthy store and webhook. -/
def envOkStore : MainEnv :=
  { carNumber := some "1234", redisOk := true, getOk := true, putOk := true
    webhookSet := true, deliveryOk := true, page := pageOk, now := "t1"
    store := stOld }

/-- A previously stored snapshot for car 1234 with an `error` status. -/
def oldDataErr : StoredData :=
  { car_number := "1234"
    status := "error"
    last_updated := "t0"
    details := ""
    error := "boom"
    screenshot := "" }

/-- A store already holding `oldDataErr` under car 1234. -/
def stOldErr : Store :=
  { snap := fun k => if k = "1234" then some oldDataErr else none
    hist := fun _ => [] }

/-- Same as `envOkStore` except that only the Redis write fails: the read
at line 120 and the read inside `get_parking_info` still succeed.  The
stored snapshot has an `error` status while the page now succeeds, so the
compared fields really did change. -/
def envPutFail : MainEnv :=
  { carNumber := some "1234", redisOk := true, getOk := true, putOk := false
    webhookSet := true, deliveryOk := true, page := pageOk, now := "t1"
    store := stOldErr }

/-- Same as `envOkStore` except that the store is unreachable: every
Redis read raises (and hence no write happens either). -/
def envUnreachable : MainEnv :=
  { carNumber := some "1234", redisOk := true, getOk := false, putOk := false
    webhookSet := true, deliveryOk := true, page := pageOk, now := "t1"
    store := stOld }

/-- A main environment whose acquisition fails (missing URL). -/
def envErrPage : MainEnv :=
  { carNumber := some "1234", redisOk := true, getOk := true, putOk := true
    webhookSet := true, deliveryOk := true, page := pageErr, now := "t1"
    store := stOld }

/-- Returns `true` when an `Except` value is `ok`. -/
def exOk {ε α : Type} : Except ε α → Bool
  | Except.ok _ => true
  | Except.error _ => false

/-- All stages strictly before the search-activation stage succeed. -/
def stagesBeforeSearchOk (env : PageEnv) : Bool :=
  env.setupExc.isNone && env.parkingUrl.isSome &&
    exOk env.inputField && exOk env.digitEntry

/-- The search-activation stage is the first stage to fail. -/
def searchFailsFirst (env : PageEnv) : Bool :=
  stagesBeforeSearchOk env && !(exOk env.searchButton)

/-- Every stage up to and including search activation succeeds. -/
def throughSearchOk (env : PageEnv) : Bool :=
  stagesBeforeSearchOk env && exOk env.searchButton

end Parking

/-! ## Theorems -/

namespace Parking

/-- Helper: `check_parking_location` always echoes the requested car
number into the result dictionary. -/
theorem check_car_number (env : PageEnv) (n : String) :
    (checkParkingLocation env n).car_number = some n := by
  rcases env with ⟨se, pu, inf, de, sb, bt⟩
  cases se <;> cases pu <;> cases inf <;> cases de <;> cases sb <;>
    cases bt <;> rfl

/-- Helper: the result status is always the string `found` or the string
`error`. -/
theorem check_status_cases (env : PageEnv) (n : String) :
    (checkParkingLocation env n).status = some "found" ∨
      (checkParkingLocation env n).status = some "error" := by
  rcases env with ⟨se, pu, inf, de, sb, bt⟩
  cases se <;> cases pu <;> cases inf <;> cases de <;> cases sb <;>
    cases bt <;> first
      | exact Or.inl rfl
      | exact Or.inr rfl

/-- Helper: taking 10 after appending only depends on the first 10
elements of the appended list. -/
theorem take_append_take (a b : List HistoryEntry) :
    (a ++ b.take 10).take 10 = (a ++ b).take 10 := by
  rw [List.take_append_eq_append_take, List.take_append_eq_append_take,
    List.take_take]
  rw [Nat.min_eq_left (Nat.sub_le 10 a.length)]

/-- Helper: folding `appendHistory` over any entry list, starting from a
list within the bound, is reversal plus truncation. -/
theorem foldl_appendHistory (es : List HistoryEntry) :
    ∀ l : List HistoryEntry, l.length ≤ 10 →
      es.foldl appendHistory l = (es.reverse ++ l).take 10 := by
  induction es with
  | nil =>
    intro l h
    simpa using (List.take_of_length_le h).symm
  | cons e es ih =>
    intro l h
    rw [List.foldl_cons]
    have h2 : (appendHistory l e).length ≤ 10 := by
      simp [appendHistory]
    rw [ih (appendHistory l e) h2]
    unfold appendHistory
    rw [take_append_take, List.reverse_cons, List.append_assoc]
    rfl

/-- Claim C10: a result dictionary with no (or an empty) car number makes
`save_parking_info` return `(False, "차량번호가 없습니다.")` before any
Redis access: the store is returned exactly as it was, so no snapshot key
and no history list is modified. -/
theorem save_no_car_number (getOk : Bool) (putOk : Bool) (st : Store)
    (now : String) (r : PResult) (h : r.car_number.getD "" = "") :
    saveParkingInfo getOk putOk st now r =
      Except.ok (st, false, "차량번호가 없습니다.") := by
  unfold saveParkingInfo
  simp [h]

/-- Witness for C10 at a concrete car-number-less dictionary. -/
theorem save_no_car_number_witness :
    saveParkingInfo true true Store.empty "t1" rNoCar =
      Except.ok (Store.empty, false, "차량번호가 없습니다.") :=
  save_no_car_number true true Store.empty "t1" rNoCar rfl

/-- Claim C3: history appends insert at the head and truncate to 10, so
the list never exceeds 10 entries however often it is called; appending
15 sequential entries to an empty history leaves exactly the last 10,
most-recent-first. -/
theorem history_bound (es : List HistoryEntry) (h : es.length = 15) :
    es.foldl appendHistory [] = es.reverse.take 10 ∧
      (es.foldl appendHistory []).length = 10 ∧
      (∀ l : List HistoryEntry, ∀ e : HistoryEntry,
        (appendHistory l e).length ≤ 10) ∧
      (∀ l : List HistoryEntry, ∀ e : HistoryEntry,
        (appendHistory l e).head? = some e) := by
  have h0 : es.foldl appendHistory [] = es.reverse.take 10 := by
    simpa using foldl_appendHistory es [] (by simp)
  refine ⟨h0, ?_, ?_, ?_⟩
  · rw [h0]
    simp [h]
  · intro l e
    simp [appendHistory]
  · intro l e
    simp [appendHistory]

/-- Witness for C3 at the fifteen concrete entries. -/
theorem history_bound_witness :
    (entries15.foldl appendHistory []).length = 10 :=
  (history_bound entries15 (by simp [entries15])).2.1

/-- Helper: with a working store and a nonempty car number, the changed
flag of `save_parking_info` against a stored snapshot is exactly the
existence of a first differing compared field. -/
theorem saveChangedB_red (st : Store) (now : String) (r : PResult)
    (cn : String) (old : StoredData) (hcn : r.car_number = some cn)
    (hne : cn ≠ "") (hold : st.snap cn = some old) :
    saveChangedB st now r = (firstDiff old (mkNewData cn now r)).isSome := by
  unfold saveChangedB saveParkingInfo saveBody
  simp [hcn, hne, hold]

/-- Helper: `firstDiff` only reads the three compared fields of either
argument. -/
theorem firstDiff_congr (old1 old2 nd1 nd2 : StoredData)
    (h1 : old1.status = old2.status) (h2 : old1.details = old2.details)
    (h3 : old1.error = old2.error) (h4 : nd1.status = nd2.status)
    (h5 : nd1.details = nd2.details) (h6 : nd1.error = nd2.error) :
    firstDiff old1 nd1 = firstDiff old2 nd2 := by
  unfold firstDiff
  rw [h1, h2, h3, h4, h5, h6]

/-- Helper: a change-message line is never the empty string (it ends in a
newline). -/
theorem diffLine_ne_empty (f : String) (a : String) (b : String) :
    diffLine f a b ≠ "" := by
  unfold diffLine
  intro h
  have hl := congrArg String.length h
  simp [String.length_append] at hl
  exact absurd hl.2 (by decide)

/-- Counterexample for C4 as stated: against an empty store the change
summary returned by `save_parking_info` is the source constant
`"신규 주차 정보 저장"`, not the string `"initial record"`. -/
theorem initial_record_counterexample :
    saveChangedB Store.empty "t1" rFound = true ∧
      saveMsg Store.empty "t1" rFound = some "신규 주차 정보 저장" ∧
      saveMsg Store.empty "t1" rFound ≠ some "initial record" :=
  ⟨rfl, rfl, by decide⟩

/-- Claim C4 (amended): against a store with no snapshot for the car
number, `save_parking_info` reports `changed = true` with the fixed
initial-record summary `"신규 주차 정보 저장"`, and the history entry it
records has change kind `create`. -/
theorem initial_record (st : Store) (now : String) (r : PResult)
    (cn : String) (hcn : r.car_number = some cn) (hne : cn ≠ "")
    (habs : st.snap cn = none) :
    saveChangedB st now r = true ∧
      saveMsg st now r = some "신규 주차 정보 저장" ∧
      ((saveStore st now r).hist cn).head?.map HistoryEntry.change_type =
        some "create" := by
  refine ⟨?_, ?_, ?_⟩
  · unfold saveChangedB saveParkingInfo saveBody
    simp [hcn, hne, habs]
  · unfold saveMsg saveParkingInfo saveBody
    simp [hcn, hne, habs]
    decide
  · unfold saveStore saveParkingInfo saveBody
    simp [hcn, hne, habs, appendHistory]

/-- Witness for C4 (amended) at the concrete found result and the empty
store. -/
theorem initial_record_witness :
    saveChangedB Store.empty "t1" rFound = true :=
  (initial_record Store.empty "t1" rFound "1234" rfl (by decide) rfl).1

/-- Claim C1: with a stored snapshot present, `save_parking_info` reports
`changed = false` exactly when `status`, `details` and `error` all equal
the stored values (with the `get` defaults of the result dictionary), and the
`last_updated` and `screenshot` fields of neither side ever influence the
flag. -/
theorem changed_iff_compared_fields (st : Store) (now : String)
    (r : PResult) (cn : String) (old : StoredData)
    (hcn : r.car_number = some cn) (hne : cn ≠ "")
    (hold : st.snap cn = some old) :
    (saveChangedB st now r = true ↔
      ¬(old.status = r.status.getD "unknown" ∧
        old.details = r.details.getD "" ∧
        old.error = r.error.getD "")) ∧
    (∀ s2 : Option String, ∀ now2 : String,
      saveChangedB st now2 { r with screenshot := s2 } =
        saveChangedB st now r) ∧
    (∀ lu : String, ∀ ss : String, ∀ now2 : String,
      saveChangedB
        { st with snap := fun k =>
            if k = cn then
              some { old with last_updated := lu, screenshot := ss }
            else st.snap k } now2 r =
        saveChangedB st now r) := by
  have hred := saveChangedB_red st now r cn old hcn hne hold
  refine ⟨?_, ?_, ?_⟩
  · rw [hred]
    unfold firstDiff mkNewData
    by_cases h1 : old.status = r.status.getD "unknown" <;>
      by_cases h2 : old.details = r.details.getD "" <;>
        by_cases h3 : old.error = r.error.getD "" <;>
          simp [h1, h2, h3]
  · intro s2 now2
    have hred2 := saveChangedB_red st now2 { r with screenshot := s2 } cn old
      hcn hne hold
    rw [hred, hred2]
    rw [firstDiff_congr old old (mkNewData cn now2 { r with screenshot := s2 })
      (mkNewData cn now r) rfl rfl rfl rfl rfl rfl]
  · intro lu ss now2
    have hred2 := saveChangedB_red
      { st with snap := fun k =>
          if k = cn then
            some { old with last_updated := lu, screenshot := ss }
          else st.snap k } now2 r cn
      { old with last_updated := lu, screenshot := ss } hcn hne (by simp)
    rw [hred, hred2]
    rw [firstDiff_congr { old with last_updated := lu, screenshot := ss } old
      (mkNewData cn now2 r) (mkNewData cn now r) rfl rfl rfl rfl rfl rfl]

/-- Witness for C1 at a concrete store and result whose details differ. -/
theorem changed_iff_compared_fields_witness :
    saveChangedB stOld "t1" rFound = true :=
  (changed_iff_compared_fields stOld "t1" rFound "1234" oldData rfl
    (by decide) rfl).1.mpr (by decide)

/-- Helper: with a working store, a nonempty car number and a stored
snapshot, the returned message when a first differing field exists is
the stripped diff line of that field. -/
theorem saveMsg_diff (st : Store) (now : String) (r : PResult)
    (cn : String) (old : StoredData) (f : String) (ov : String)
    (nv : String) (hcn : r.car_number = some cn) (hne : cn ≠ "")
    (hold : st.snap cn = some old)
    (hdiff : firstDiff old (mkNewData cn now r) = some (f, ov, nv)) :
    saveMsg st now r = some (pyStrip (diffLine f ov nv)) := by
  unfold saveMsg saveParkingInfo saveBody
  simp [hcn, hne, hold, hdiff, diffLine_ne_empty]

/-- Claim C5: the comparison stops at the first differing field in the
order `status`, `details`, `error`, and the returned summary is that
before/after line of that single field — whatever the later fields hold; in
particular a `status` difference alone determines the summary even when
`details` also differs. -/
theorem first_differing_field_summary (st : Store) (now : String)
    (r : PResult) (cn : String) (old : StoredData)
    (hcn : r.car_number = some cn) (hne : cn ≠ "")
    (hold : st.snap cn = some old) :
    (old.status ≠ r.status.getD "unknown" →
      saveMsg st now r =
        some (pyStrip (diffLine "status" old.status (r.status.getD "unknown")))) ∧
    (old.status = r.status.getD "unknown" →
      old.details ≠ r.details.getD "" →
      saveMsg st now r =
        some (pyStrip (diffLine "details" old.details (r.details.getD "")))) ∧
    (old.status = r.status.getD "unknown" →
      old.details = r.details.getD "" →
      old.error ≠ r.error.getD "" →
      saveMsg st now r =
        some (pyStrip (diffLine "error" old.error (r.error.getD "")))) := by
  refine ⟨?_, ?_, ?_⟩
  · intro h1
    exact saveMsg_diff st now r cn old "status" old.status
      (r.status.getD "unknown") hcn hne hold (by unfold firstDiff mkNewData; simp [h1])
  · intro h1 h2
    exact saveMsg_diff st now r cn old "details" old.details
      (r.details.getD "") hcn hne hold (by unfold firstDiff mkNewData; simp [h1, h2])
  · intro h1 h2 h3
    exact saveMsg_diff st now r cn old "error" old.error
      (r.error.getD "") hcn hne hold (by unfold firstDiff mkNewData; simp [h1, h2, h3])

/-- Witness for C5 at a stored `found` snapshot and a new `error` result:
both `status` and `details` differ and the summary is the status line. -/
theorem first_differing_field_summary_witness :
    saveMsg stOld "t1" rErr =
      some (pyStrip (diffLine "status" "found" "error")) :=
  (first_differing_field_summary stOld "t1" rErr "1234" oldData rfl
    (by decide) rfl).1 (by decide)

/-- Helper: after a successful `save_parking_info` write, the snapshot
key holds the freshly built data. -/
theorem saveBody_put_snap (st : Store) (now : String) (cn : String)
    (r : PResult) :
    ((saveBody true st now cn r).1).snap cn = some (mkNewData cn now r) := by
  unfold saveBody
  rw [if_neg (by decide : ¬(true = false))]
  split <;> simp

/-- Claim C6: `check_parking_location` is total and two-valued: for every
page environment it returns either a `found` dictionary carrying details
text and no error, or an `error` dictionary whose `error` field is
exactly the message of the first failing stage (missing configuration,
missing input control, digit-entry failure, missing search control,
result-parsing failure, or the unexpected exception caught by the outer
handler). -/
theorem acquisition_two_outcomes (env : PageEnv) (n : String) :
    ((checkParkingLocation env n).status = some "found" ∧
      (checkParkingLocation env n).error = none ∧
      ((checkParkingLocation env n).details).isSome = true ∧
      firstFailureReason env = none) ∨
    ((checkParkingLocation env n).status = some "error" ∧
      (checkParkingLocation env n).error = firstFailureReason env ∧
      (firstFailureReason env).isSome = true) := by
  rcases env with ⟨se, pu, inf, de, sb, bt⟩
  cases se <;> cases pu <;> cases inf <;> cases de <;> cases sb <;>
    cases bt <;> simp [checkParkingLocation, firstFailureReason, errResult]

/-- Counterexample for C9 as stated: a fully successful acquisition also
carries an artifact path (the result screenshot), so artifacts are not
exclusive to search-activation failures. -/
theorem screenshot_counterexample :
    (checkParkingLocation pageOk "1234").status = some "found" ∧
      (checkParkingLocation pageOk "1234").screenshot ≠ none :=
  ⟨rfl, by decide⟩

/-- Claim C9 (amended): the debug screenshot `/tmp/parking_debug.png` is
attached exactly when the search-activation stage is the first to fail;
the result screenshot `/tmp/parking_location.png` is attached exactly
when every stage through search activation succeeds (successful
acquisition and result-parsing failure alike); results of earlier
failures carry no artifact reference. -/
theorem screenshot_attachment (env : PageEnv) (n : String) :
    ((checkParkingLocation env n).screenshot =
        some "/tmp/parking_debug.png" ↔ searchFailsFirst env = true) ∧
    ((checkParkingLocation env n).screenshot =
        some "/tmp/parking_location.png" ↔ throughSearchOk env = true) ∧
    ((checkParkingLocation env n).screenshot = none ↔
      stagesBeforeSearchOk env = false) := by
  rcases env with ⟨se, pu, inf, de, sb, bt⟩
  cases se <;> cases pu <;> cases inf <;> cases de <;> cases sb <;>
    cases bt <;> simp [checkParkingLocation, errResult, searchFailsFirst,
      throughSearchOk, stagesBeforeSearchOk, exOk]

/-- Claim C2: with a configured webhook and a healthy store, an `error`
status always leads to exactly one notification attempt, while a `found`
status leads to a notification attempt exactly when the save reported a
change. -/
theorem notification_policy (env : MainEnv) (hr : env.redisOk = true)
    (hg : env.getOk = true) (hp : env.putOk = true)
    (hw : env.webhookSet = true) (hcn : ¬(env.carNumber.getD "" = "")) :
    (((checkParkingLocation env.page (env.carNumber.getD "")).status =
        some "error") → (mainCycle env).notifyAttempts = 1) ∧
    (((checkParkingLocation env.page (env.carNumber.getD "")).status =
        some "found") →
      ((mainCycle env).notifyAttempts = 1 ↔
        (mainCycle env).redisChanged = true)) := by
  have hcar := check_car_number env.page (env.carNumber.getD "")
  have hsave : saveParkingInfo true true env.store env.now
      (checkParkingLocation env.page (env.carNumber.getD "")) =
      Except.ok (saveBody true env.store env.now (env.carNumber.getD "")
        (checkParkingLocation env.page (env.carNumber.getD ""))) := by
    unfold saveParkingInfo
    simp [hcar, hcn]
  constructor
  · intro hstatus
    have hnf : ¬((checkParkingLocation env.page (env.carNumber.getD "")).status =
        some "found") := by
      rw [hstatus]
      simp
    simp [mainCycle, hcn, hr, hg, hp, hsave, hnf, hw]
  · intro hstatus
    have hsnap := saveBody_put_snap env.store env.now (env.carNumber.getD "")
      (checkParkingLocation env.page (env.carNumber.getD ""))
    simp [mainCycle, hcn, hr, hg, hp, hsave, hstatus, hw, getParkingInfo,
      hsnap]

/-- Witness for C2 at an error acquisition against a healthy store. -/
theorem notification_policy_witness :
    (mainCycle envErrPage).notifyAttempts = 1 :=
  (notification_policy envErrPage rfl rfl rfl rfl (by decide)).1 rfl

/-- Claim C7: the process exit code is 0 exactly when a car number was
configured and acquisition returned `found`; it is unchanged by the store
write flags, the delivery outcome and the webhook configuration. -/
theorem exit_code_contract (env : MainEnv) :
    ((mainCycle env).exitCode = 0 ↔
      (¬(env.carNumber.getD "" = "") ∧
        (checkParkingLocation env.page (env.carNumber.getD "")).status =
          some "found")) ∧
    (∀ p g d w : Bool,
      (mainCycle
          { env with putOk := p, getOk := g, deliveryOk := d, webhookSet := w
          }).exitCode =
        (mainCycle env).exitCode) := by
  constructor
  · by_cases hcn : env.carNumber.getD "" = ""
    · simp [mainCycle, hcn]
    · by_cases hf : (checkParkingLocation env.page (env.carNumber.getD "")).status =
          some "found"
      · simp [mainCycle, hcn, hf]
      · simp [mainCycle, hcn, hf]
  · intro p g d w
    by_cases hcn : env.carNumber.getD "" = ""
    · simp [mainCycle, hcn]
    · by_cases hf : (checkParkingLocation env.page (env.carNumber.getD "")).status =
          some "found"
      · simp [mainCycle, hcn, hf]
      · simp [mainCycle, hcn, hf]

/-- Counterexample for C8 as stated: when only the Redis write fails but
reads keep working, a `found` cycle whose compared fields did change
makes zero notification attempts (the stale stored snapshot plus the
`False` returned by the failed save suppress it), not exactly one. -/
theorem put_failure_counterexample :
    envPutFail.putOk = false ∧ envPutFail.webhookSet = true ∧
      (checkParkingLocation envPutFail.page "1234").status = some "found" ∧
      saveChangedB envPutFail.store envPutFail.now
        (checkParkingLocation envPutFail.page "1234") = true ∧
      (mainCycle envPutFail).notifyAttempts = 0 ∧
      (mainCycle envPutFail).exitCode = 0 :=
  ⟨rfl, rfl, rfl, rfl, rfl, rfl⟩

/-- Claim C8 (amended): when the store is unreachable — the snapshot read
inside `save_parking_info` raises, so no write happens either — the cycle
is not aborted: the acquisition result is still produced, exactly one
notification attempt is made (with a configured webhook), the store is
left untouched, and the exit code is the one a healthy store would give,
i.e. it reflects only the acquisition outcome. -/
theorem store_unreachable_degrade (env : MainEnv) (hr : env.redisOk = true)
    (hg : env.getOk = false) (hw : env.webhookSet = true)
    (hcn : ¬(env.carNumber.getD "" = "")) :
    (mainCycle env).notifyAttempts = 1 ∧
      (mainCycle env).result =
        some (checkParkingLocation env.page (env.carNumber.getD "")) ∧
      (mainCycle env).store = env.store ∧
      (mainCycle env).exitCode =
        (mainCycle { env with getOk := true, putOk := true }).exitCode := by
  have hcar := check_car_number env.page (env.carNumber.getD "")
  have hsave : saveParkingInfo false env.putOk env.store env.now
      (checkParkingLocation env.page (env.carNumber.getD "")) =
      Except.error "redis get raised" := by
    unfold saveParkingInfo
    simp [hcar, hcn]
  by_cases hf : (checkParkingLocation env.page (env.carNumber.getD "")).status =
      some "found"
  · simp [mainCycle, hcn, hr, hg, hsave, hf, hw, getParkingInfo]
  · simp [mainCycle, hcn, hr, hg, hsave, hf, hw, getParkingInfo]

/-- Witness for C8 (amended) at a concrete unreachable-store
environment. -/
theorem store_unreachable_degrade_witness :
    (mainCycle envUnreachable).notifyAttempts = 1 :=
  (store_unreachable_degrade envUnreachable rfl rfl rfl (by decide)).1

end Parking
